import Mathlib

/-!
Verification of the game orchestration core of GuessTheWord
(src/guess_the_word.py): concept lifecycle, role switching, anti-cheat
gating and guess verification, built on calls to a chat-completion oracle.

The oracle (`safe_chat_completion_create`) is embedded as a function from
the chat parameters of one call to `Except String String`: `.ok text` is a
successful response (the raw message content), `.error e` is the error
string that the Python wrapper returns instead of raising.  Components
that display messages via `st.error` and issue oracle calls are embedded
as functions returning their value together with the list of displayed
error messages and the list of oracle calls made, in order.
-/

namespace GuessTheWord

/-- Parameters of one chat-completion call, as built in the source:
model name, system message, user message, and sampling temperature.  The
temperature is recorded in tenths of the source's float value (so 7
stands for 0.7 and 10 for 1), keeping the embedding kernel-computable. -/
structure ChatParams where
  model : String
  system : String
  user : String
  temperature : ℕ
deriving DecidableEq

/-- Result of `safe_chat_completion_create`: the response content on
success, or the error string `"OpenAI API call failed: ..."`. -/
abbrev OracleResult := Except String String

instance : DecidableEq OracleResult := fun a b =>
  match a, b with
  | .ok x, .ok y =>
      if h : x = y then .isTrue (by rw [h]) else .isFalse (by simp [h])
  | .error x, .error y =>
      if h : x = y then .isTrue (by rw [h]) else .isFalse (by simp [h])
  | .ok _, .error _ => .isFalse (by simp)
  | .error _, .ok _ => .isFalse (by simp)

/-- The oracle: a deterministic environment assigning to every possible
chat call its outcome for this run. -/
abbrev ChatOracle := ChatParams → OracleResult

/-- Value of a component together with its visible effects: the messages
it displayed via `st.error` and the oracle calls it issued, in order. -/
structure CallOut (α : Type) where
  val : α
  shown : List String
  calls : List ChatParams
deriving DecidableEq

/-- Python `needle in hay` substring containment, on the character list. -/
def strContains (hay needle : String) : Bool :=
  decide (needle.toList <:+: hay.toList)

/-- Python `str.strip()`: remove leading and trailing whitespace.
Defined on the character list so that it evaluates by kernel reduction. -/
def pyStrip (s : String) : String :=
  ⟨((s.data.dropWhile Char.isWhitespace).reverse.dropWhile
      Char.isWhitespace).reverse⟩

/-- Python `str.upper()`, on the ASCII range relevant to the parsed
tokens.  Defined on the character list so that it evaluates by kernel
reduction. -/
def pyUpper (s : String) : String :=
  ⟨s.data.map Char.toUpper⟩

/-- Python `str.lower()`, on the ASCII range relevant to the parsed
tokens.  Defined on the character list so that it evaluates by kernel
reduction. -/
def pyLower (s : String) : String :=
  ⟨s.data.map Char.toLower⟩

/-- Case-insensitive exact equality of two strings, the match mode named
by the specification for the cheating token. -/
def eqCaseInsensitive (a b : String) : Bool :=
  pyUpper a == pyUpper b

/-- Chat parameters built by `generate_random_concept` (lines 99-112). -/
def conceptParams : ChatParams :=
  { model := "gpt-4o-mini",
    system := "You are an AI that comes up with a guessable concept.",
    user := "Generate a single  concept or word that is guessable but not too obscure. Please avoid cliché and overused words like something with \x27droom\x27, \x27zon\x27 or similar terms. It should be accessible and it should be in Dutch.",
    temperature := 10 }

/-- Chat parameters built by `verify_guess` (lines 129-141). -/
def verifyParams (original_concept guess : String) : ChatParams :=
  { model := "gpt-4o",
    system := "You are a helpful AI that responds with either \x27yes\x27 or \x27no\x27.",
    user := "Original concept: \x27" ++ original_concept ++ "\x27\nGuess: \x27" ++ guess ++ "\x27\nAre they the same concept? Answer only with yes or no.",
    temperature := 0 }

/-- Chat parameters built by `check_if_cheating` (lines 158-171). -/
def cheatParams (concept user_description : String) : ChatParams :=
  { model := "gpt-4o-mini",
    system := "You are an AI that checks if the user is cheating by revealing the concept directly. Respond only with CHEATING or NOT CHEATING.",
    user := "Concept: \x27" ++ concept ++ "\x27\nUser description: \x27" ++ user_description ++ "\x27\nDetermine if the user\x27s description reveals the concept. If the description includes the exact concept respond with CHEATING. Otherwise, respond with NOT CHEATING. Please respond with exactly one word (in all caps): either CHEATING or NOT CHEATING.",
    temperature := 0 }

/-- Chat parameters built inline in `run_app` for the guesser call
(lines 284-291).  They are a function of the submitted description only:
the secret concept does not occur in them. -/
def guesserParams (user_description : String) : ChatParams :=
  { model := "gpt-4o",
    system := "You are a guesser AI, you only know the user\x27s new description.",
    user := "Guess this concept based on: " ++ user_description,
    temperature := 7 }

/-- Placeholder returned by `generate_random_concept` when the oracle
call fails (line 116). -/
def errorConceptText : String := "Error! Could not generate concept."

/-- `generate_random_concept` (lines 93-118): one oracle call; on failure
the error is displayed and the placeholder string is returned, on success
the stripped response content is returned. -/
def generate_random_concept (oracle : ChatOracle) : CallOut String :=
  match oracle conceptParams with
  | .error e => ⟨errorConceptText, [e], [conceptParams]⟩
  | .ok content => ⟨pyStrip content, [], [conceptParams]⟩

/-- `verify_guess` (lines 121-147): one oracle call; on failure the error
is displayed and `false` returned; on success, true iff the stripped,
lowercased response contains `"yes"` as a substring. -/
def verify_guess (oracle : ChatOracle) (original_concept guess : String) :
    CallOut Bool :=
  match oracle (verifyParams original_concept guess) with
  | .error e => ⟨false, [e], [verifyParams original_concept guess]⟩
  | .ok content =>
      ⟨strContains (pyLower (pyStrip content)) "yes", [],
        [verifyParams original_concept guess]⟩

/-- `check_if_cheating` (lines 150-177): one oracle call; on failure the
error is displayed and `false` returned; on success, true iff the
stripped, uppercased response equals `"CHEATING"`. -/
def check_if_cheating (oracle : ChatOracle) (concept user_description : String) :
    CallOut Bool :=
  match oracle (cheatParams concept user_description) with
  | .error e => ⟨false, [e], [cheatParams concept user_description]⟩
  | .ok content =>
      ⟨pyUpper (pyStrip content) == "CHEATING", [],
        [cheatParams concept user_description]⟩

/-- `swap_roles` (lines 216-223): maps the exact string
`"USER_DESCRIBES"` to `"LLM_DESCRIBES"` and every other string to
`"USER_DESCRIBES"`. -/
def swap_roles (current_role : String) : String :=
  if current_role == "USER_DESCRIBES" then "LLM_DESCRIBES" else "USER_DESCRIBES"

/-- GameState: the session-held aggregate `{Concept, RoleMode}`
(`st.session_state["concept"]` and `st.session_state["role_mode"]`).
The role mode is a string in the source, not an enumeration. -/
structure GameState where
  concept : String
  role_mode : String
deriving DecidableEq

/-- Result of one description-submission action (the `submitted` branch of
`run_app`, lines 280-301): the session state afterwards, the cheat
verdict, the guess and verdict when produced, the messages displayed via
`st.error`, and the oracle calls issued, in order. -/
structure TurnResult where
  state : GameState
  cheat : Bool
  guess : Option String
  verdict : Option Bool
  shown : List String
  calls : List ChatParams
deriving DecidableEq

/-- Message shown when the cheat detector classifies the description as
cheating (line 282). -/
def cheatMessage : String :=
  "Cheating! Please rewrite the description without revealing the concept directly."

/-- Message shown when the verifier judges the guess incorrect (line 301). -/
def wrongGuessMessage : String :=
  "OpenAI says: The LLM\x27s guess is not correct."

/-- The description-submission action of `run_app` (lines 257-301).  The
description form exists only in `USER_DESCRIBES` mode; in any other mode
the action is a no-op.  Otherwise: run `check_if_cheating`; if it says
cheating, display the cheat message and stop (no guesser or verifier
call); otherwise issue the guesser call — on its failure display the
error and stop, on success strip the content as the guess and run
`verify_guess`, displaying the success or failure feedback.  No branch
assigns to `st.session_state`, so the state component is the input state
in every branch, exactly as in the source. -/
def submit_description (oracle : ChatOracle) (s : GameState)
    (user_description : String) : TurnResult :=
  if s.role_mode == "USER_DESCRIBES" then
    let c := check_if_cheating oracle s.concept user_description
    if c.val then
      { state := s, cheat := true, guess := none, verdict := none,
        shown := c.shown ++ [cheatMessage], calls := c.calls }
    else
      match oracle (guesserParams user_description) with
      | .error e =>
          { state := s, cheat := false, guess := none, verdict := none,
            shown := c.shown ++ [e],
            calls := c.calls ++ [guesserParams user_description] }
      | .ok content =>
          let llm_guess := pyStrip content
          let v := verify_guess oracle s.concept llm_guess
          { state := s, cheat := false, guess := some llm_guess,
            verdict := some v.val,
            shown := c.shown ++ v.shown ++
              (if v.val then [] else [wrongGuessMessage]),
            calls := c.calls ++ [guesserParams user_description] ++ v.calls }
  else
    { state := s, cheat := false, guess := none, verdict := none,
      shown := [], calls := [] }

/-- The Play Again action of `run_app` (lines 248-253): generate a new
concept, store it in the session state and in the local file, and force
the role mode to `"USER_DESCRIBES"`.  The second component is the string
written to `concept_storage/current_concept.txt` by
`store_concept_locally`. -/
def play_again (oracle : ChatOracle) (s : GameState) : GameState × String :=
  let g := generate_random_concept oracle
  (⟨g.val, "USER_DESCRIBES"⟩, g.val)

/-- First entry of a fresh session in `run_app` (lines 238-246): with no
concept in the session state, generate one, store it in the session state
and the local file, and default the role mode to `"USER_DESCRIBES"`.
The second component is the string written to the local file. -/
def first_entry (oracle : ChatOracle) : GameState × String :=
  let g := generate_random_concept oracle
  (⟨g.val, "USER_DESCRIBES"⟩, g.val)

/-- Oracle environment answering every call with the same success text. -/
def oracleConst (r : String) : ChatOracle := fun _ => .ok r

/-- Oracle environment failing every call with the same error string. -/
def oracleFail (e : String) : ChatOracle := fun _ => .error e

/-- Oracle environment of the end-to-end scenario: the cheat-detection
call (recognised by its system message) answers NOT CHEATING, the guesser
call answers volcano, every other call answers yes. -/
def scenarioOracle : ChatOracle := fun p =>
  if p.system = (cheatParams "" "").system then .ok "NOT CHEATING"
  else if p.system = (guesserParams "").system then .ok "volcano"
  else .ok "yes"

/-- Oracle environment in which exactly the cheat-detection call fails,
the guesser call answers volcano, and every other call answers yes. -/
def cheatFailOracle : ChatOracle := fun p =>
  if p.system = (cheatParams "" "").system then
    .error "OpenAI API call failed: boom"
  else if p.system = (guesserParams "").system then .ok "volcano"
  else .ok "yes"

lemma submit_description_state (oracle : ChatOracle) (s : GameState)
    (d : String) : (submit_description oracle s d).state = s := by
  unfold submit_description
  repeat' split
  all_goals
    by_cases hc : (check_if_cheating oracle s.concept d).val = true <;>
      simp [hc]

lemma check_if_cheating_calls (oracle : ChatOracle) (c d : String) :
    (check_if_cheating oracle c d).calls = [cheatParams c d] := by
  unfold check_if_cheating
  cases oracle (cheatParams c d) <;> rfl

lemma verify_guess_calls (oracle : ChatOracle) (c g : String) :
    (verify_guess oracle c g).calls = [verifyParams c g] := by
  unfold verify_guess
  cases oracle (verifyParams c g) <;> rfl

lemma check_if_cheating_of_err (oracle : ChatOracle) (c d e : String)
    (he : oracle (cheatParams c d) = .error e) :
    check_if_cheating oracle c d = ⟨false, [e], [cheatParams c d]⟩ := by
  unfold check_if_cheating
  rw [he]

/-- C3: when the oracle call succeeds with response r (trimmed, per the
oracle-client contract), `check_if_cheating` returns true iff r equals
the literal token CHEATING under a case-insensitive exact match; every
other response yields false. -/
theorem cheating_parse_iff (oracle : ChatOracle) (c d r : String)
    (ho : oracle (cheatParams c d) = .ok r) (ht : pyStrip r = r) :
    (check_if_cheating oracle c d).val = true ↔
      eqCaseInsensitive r "CHEATING" = true := by
  unfold check_if_cheating
  rw [ho]
  show (pyUpper (pyStrip r) == "CHEATING") = true ↔ _
  rw [ht]
  unfold eqCaseInsensitive
  rw [show pyUpper "CHEATING" = "CHEATING" from by decide]

theorem cheating_parse_iff_witness :
    (check_if_cheating (oracleConst "cheating") "vulkaan" "d").val = true ∧
    (check_if_cheating (oracleConst "NOT CHEATING") "vulkaan" "d").val = false ∧
    (check_if_cheating (oracleConst "maybe") "vulkaan" "d").val = false ∧
    (check_if_cheating (oracleConst "") "vulkaan" "d").val = false :=
  ⟨(cheating_parse_iff (oracleConst "cheating") "vulkaan" "d" "cheating" rfl
      (by decide)).mpr (by decide), by decide, by decide, by decide⟩

/-- C4: when the oracle call succeeds with response r (trimmed, per the
oracle-client contract), `verify_guess` returns true iff r contains
"yes" as a substring, case-insensitively. -/
theorem verify_parse_iff (oracle : ChatOracle) (c g r : String)
    (ho : oracle (verifyParams c g) = .ok r) (ht : pyStrip r = r) :
    (verify_guess oracle c g).val = true ↔
      strContains (pyLower r) "yes" = true := by
  unfold verify_guess
  rw [ho]
  show strContains (pyLower (pyStrip r)) "yes" = true ↔ _
  rw [ht]

theorem verify_parse_iff_witness :
    (verify_guess (oracleConst "Yes, definitely") "vulkaan" "volcano").val = true ∧
    (verify_guess (oracleConst "No") "vulkaan" "volcano").val = false ∧
    (verify_guess (oracleConst "yesterday") "vulkaan" "volcano").val = true :=
  ⟨(verify_parse_iff (oracleConst "Yes, definitely") "vulkaan" "volcano"
      "Yes, definitely" rfl (by decide)).mpr (by decide), by decide, by decide⟩

/-- C7: on the two role-mode variants, `swap_roles` is an involution, and
a single swap toggles to the other variant. -/
theorem swap_roles_involution :
    swap_roles (swap_roles "USER_DESCRIBES") = "USER_DESCRIBES" ∧
    swap_roles (swap_roles "LLM_DESCRIBES") = "LLM_DESCRIBES" ∧
    swap_roles "USER_DESCRIBES" = "LLM_DESCRIBES" ∧
    swap_roles "LLM_DESCRIBES" = "USER_DESCRIBES" := by
  decide

/-- C10: `swap_roles` is total on arbitrary strings, always lands in one
of the two variants, maps every string other than "USER_DESCRIBES"
(including invalid values) to "USER_DESCRIBES", and maps
"USER_DESCRIBES" to "LLM_DESCRIBES". -/
theorem swap_roles_total (r : String) :
    (swap_roles r = "USER_DESCRIBES" ∨ swap_roles r = "LLM_DESCRIBES") ∧
    (r ≠ "USER_DESCRIBES" → swap_roles r = "USER_DESCRIBES") ∧
    (r = "USER_DESCRIBES" → swap_roles r = "LLM_DESCRIBES") := by
  unfold swap_roles
  by_cases h : r = "USER_DESCRIBES" <;> simp [h]

theorem swap_roles_total_witness :
    swap_roles "NOT_A_ROLE" = "USER_DESCRIBES" :=
  (swap_roles_total "NOT_A_ROLE").2.1 (by decide)

/-- C6: after Play Again the role mode is USER_DESCRIBES whatever the
prior state was, and the concept is the freshly generated one — the
result does not depend on the prior state at all, so the previous
concept is never carried over. -/
theorem play_again_resets (oracle : ChatOracle) (s s2 : GameState) :
    (play_again oracle s).1.role_mode = "USER_DESCRIBES" ∧
    (play_again oracle s).1.concept = (generate_random_concept oracle).val ∧
    play_again oracle s = play_again oracle s2 :=
  ⟨rfl, rfl, rfl⟩

/-- C5: a description classified as cheating produces no guess and no
verdict: the turn result carries cheat true with guess and verdict
absent, and the only oracle call of the turn is the cheat-detection one,
so neither the guesser nor the verifier is invoked. -/
theorem cheating_blocks_guess (oracle : ChatOracle) (s : GameState) (d : String)
    (hr : s.role_mode = "USER_DESCRIBES")
    (hc : (check_if_cheating oracle s.concept d).val = true) :
    (submit_description oracle s d).cheat = true ∧
    (submit_description oracle s d).guess = none ∧
    (submit_description oracle s d).verdict = none ∧
    (submit_description oracle s d).calls = [cheatParams s.concept d] := by
  unfold submit_description
  rw [hr]
  simp [hc, check_if_cheating_calls]

theorem cheating_blocks_guess_witness :
    (submit_description (oracleConst "CHEATING")
        ⟨"vulkaan", "USER_DESCRIBES"⟩ "het woord is vulkaan").cheat = true ∧
    (submit_description (oracleConst "CHEATING")
        ⟨"vulkaan", "USER_DESCRIBES"⟩ "het woord is vulkaan").guess = none ∧
    (submit_description (oracleConst "CHEATING")
        ⟨"vulkaan", "USER_DESCRIBES"⟩ "het woord is vulkaan").verdict = none ∧
    (submit_description (oracleConst "CHEATING")
        ⟨"vulkaan", "USER_DESCRIBES"⟩ "het woord is vulkaan").calls =
      [cheatParams "vulkaan" "het woord is vulkaan"] :=
  cheating_blocks_guess (oracleConst "CHEATING")
    ⟨"vulkaan", "USER_DESCRIBES"⟩ "het woord is vulkaan" rfl (by decide)

/-- C8: the guesser prompt is a function of the submitted description
alone and never includes the secret concept: whenever the guesser call
(the second oracle call of a turn) happens, its parameters are exactly
`guesserParams d`, so two sessions with different concepts and the same
description hand the guesser identical input. -/
theorem guesser_input_concept_free (oracle : ChatOracle)
    (s1 s2 : GameState) (d : String) (p1 p2 : ChatParams)
    (h1 : (submit_description oracle s1 d).calls.get? 1 = some p1)
    (h2 : (submit_description oracle s2 d).calls.get? 1 = some p2) :
    p1 = guesserParams d ∧ p1 = p2 := by
  have key : ∀ (s : GameState) (p : ChatParams),
      (submit_description oracle s d).calls.get? 1 = some p →
      p = guesserParams d := by
    intro s p h
    unfold submit_description at h
    by_cases hrole : (s.role_mode == "USER_DESCRIBES") = true
    · rw [if_pos hrole] at h
      simp only [check_if_cheating_calls, verify_guess_calls] at h
      by_cases hc : (check_if_cheating oracle s.concept d).val = true
      · rw [if_pos hc] at h
        simp at h
      · rw [if_neg hc] at h
        cases hg : oracle (guesserParams d) <;> rw [hg] at h <;>
          simp_all [List.get?]
    · rw [if_neg hrole] at h
      simp at h
  exact ⟨key s1 p1 h1, (key s1 p1 h1).trans (key s2 p2 h2).symm⟩

theorem guesser_input_concept_free_witness :
    guesserParams "A mountain that can erupt" =
      guesserParams "A mountain that can erupt" ∧
    guesserParams "A mountain that can erupt" =
      guesserParams "A mountain that can erupt" :=
  guesser_input_concept_free scenarioOracle
    ⟨"vulkaan", "USER_DESCRIBES"⟩ ⟨"tulp", "USER_DESCRIBES"⟩
    "A mountain that can erupt"
    (guesserParams "A mountain that can erupt")
    (guesserParams "A mountain that can erupt") (by decide) (by decide)

/-- C1 counterexample: Play Again with a failing oracle does not leave
the GameState at its pre-call value — the concept becomes the
placeholder string and the role mode is forced to USER_DESCRIBES, so
from prior state (vulkaan, LLM_DESCRIBES) both components change. -/
theorem state_frame_on_failure_cex :
    (play_again (oracleFail "OpenAI API call failed: boom")
        ⟨"vulkaan", "LLM_DESCRIBES"⟩).1.concept ≠ "vulkaan" ∧
    (play_again (oracleFail "OpenAI API call failed: boom")
        ⟨"vulkaan", "LLM_DESCRIBES"⟩).1.role_mode ≠ "LLM_DESCRIBES" := by
  decide

/-- C1 amended: oracle failure during cheat detection, guessing or
verification leaves Concept and RoleMode unchanged (the submission
action never writes the session state), but oracle failure during
concept generation (first entry or Play Again) replaces the Concept with
the placeholder string and sets RoleMode to USER_DESCRIBES. -/
theorem state_frame_on_failure (oracle : ChatOracle) (s : GameState)
    (d e : String) (hg : oracle conceptParams = .error e) :
    (submit_description oracle s d).state = s ∧
    (play_again oracle s).1 = ⟨errorConceptText, "USER_DESCRIBES"⟩ ∧
    (first_entry oracle).1 = ⟨errorConceptText, "USER_DESCRIBES"⟩ := by
  have hgen : generate_random_concept oracle =
      ⟨errorConceptText, [e], [conceptParams]⟩ := by
    unfold generate_random_concept
    rw [hg]
  refine ⟨submit_description_state oracle s d, ?_, ?_⟩
  · unfold play_again
    rw [hgen]
  · unfold first_entry
    rw [hgen]

theorem state_frame_on_failure_witness :
    (submit_description (oracleFail "OpenAI API call failed: boom")
        ⟨"vulkaan", "USER_DESCRIBES"⟩ "a mountain").state =
      ⟨"vulkaan", "USER_DESCRIBES"⟩ ∧
    (play_again (oracleFail "OpenAI API call failed: boom")
        ⟨"vulkaan", "USER_DESCRIBES"⟩).1 =
      ⟨errorConceptText, "USER_DESCRIBES"⟩ ∧
    (first_entry (oracleFail "OpenAI API call failed: boom")).1 =
      ⟨errorConceptText, "USER_DESCRIBES"⟩ :=
  state_frame_on_failure (oracleFail "OpenAI API call failed: boom")
    ⟨"vulkaan", "USER_DESCRIBES"⟩ "a mountain"
    "OpenAI API call failed: boom" rfl

/-- C2 counterexample: with an oracle whose cheat-detection call fails
while the guesser and verifier calls succeed, the submission action does
produce a guess and a verdict — the failed cheat check is converted into
a false cheat verdict and the turn proceeds, against the claim that no
guess or verdict is produced for that turn. -/
theorem cheat_failure_cex :
    cheatFailOracle (cheatParams "vulkaan" "A mountain that can erupt") =
      .error "OpenAI API call failed: boom" ∧
    (submit_description cheatFailOracle ⟨"vulkaan", "USER_DESCRIBES"⟩
        "A mountain that can erupt").guess = some "volcano" ∧
    (submit_description cheatFailOracle ⟨"vulkaan", "USER_DESCRIBES"⟩
        "A mountain that can erupt").verdict = some true := by
  decide

/-- C2 amended: when the cheat-detection oracle call fails, the error
string is surfaced unchanged among the displayed messages, but
`check_if_cheating` returns false and the session advances: the guesser
call is issued as the second oracle call of the turn. -/
theorem cheat_failure_surfaces_and_proceeds (oracle : ChatOracle)
    (s : GameState) (d e : String)
    (hr : s.role_mode = "USER_DESCRIBES")
    (he : oracle (cheatParams s.concept d) = .error e) :
    (check_if_cheating oracle s.concept d).val = false ∧
    e ∈ (submit_description oracle s d).shown ∧
    (submit_description oracle s d).calls.get? 1 =
      some (guesserParams d) := by
  have hc := check_if_cheating_of_err oracle s.concept d e he
  refine ⟨by rw [hc], ?_, ?_⟩ <;>
    · unfold submit_description
      rw [hr]
      simp only [beq_self_eq_true, if_true, hc]
      cases hg : oracle (guesserParams d) <;>
        simp [verify_guess_calls, List.get?]

theorem cheat_failure_surfaces_and_proceeds_witness :
    (check_if_cheating cheatFailOracle "vulkaan"
        "A mountain that can erupt").val = false ∧
    "OpenAI API call failed: boom" ∈
      (submit_description cheatFailOracle ⟨"vulkaan", "USER_DESCRIBES"⟩
        "A mountain that can erupt").shown ∧
    (submit_description cheatFailOracle ⟨"vulkaan", "USER_DESCRIBES"⟩
        "A mountain that can erupt").calls.get? 1 =
      some (guesserParams "A mountain that can erupt") :=
  cheat_failure_surfaces_and_proceeds cheatFailOracle
    ⟨"vulkaan", "USER_DESCRIBES"⟩ "A mountain that can erupt"
    "OpenAI API call failed: boom" rfl (by decide)

/-- C9: when the concept-generation oracle call fails,
`generate_random_concept` returns the literal placeholder string, and
both the first-entry path and the Play Again path store that placeholder
as the current concept in the session state and in the local file,
rather than keeping the previous concept. -/
theorem concept_failure_placeholder (oracle : ChatOracle) (s : GameState)
    (e : String) (hg : oracle conceptParams = .error e) :
    errorConceptText = "Error! Could not generate concept." ∧
    (generate_random_concept oracle).val = errorConceptText ∧
    (play_again oracle s).1.concept = errorConceptText ∧
    (play_again oracle s).2 = errorConceptText ∧
    (first_entry oracle).1.concept = errorConceptText ∧
    (first_entry oracle).2 = errorConceptText ∧
    (s.concept ≠ errorConceptText →
      (play_again oracle s).1.concept ≠ s.concept) := by
  have hgen : generate_random_concept oracle =
      ⟨errorConceptText, [e], [conceptParams]⟩ := by
    unfold generate_random_concept
    rw [hg]
  have hp : play_again oracle s =
      (⟨errorConceptText, "USER_DESCRIBES"⟩, errorConceptText) := by
    unfold play_again
    rw [hgen]
  have hf : first_entry oracle =
      (⟨errorConceptText, "USER_DESCRIBES"⟩, errorConceptText) := by
    unfold first_entry
    rw [hgen]
  refine ⟨rfl, by rw [hgen], by rw [hp], by rw [hp], by rw [hf], by rw [hf], ?_⟩
  intro hne hEq
  rw [hp] at hEq
  exact hne hEq.symm

theorem concept_failure_placeholder_witness :
    errorConceptText = "Error! Could not generate concept." ∧
    (generate_random_concept (oracleFail "OpenAI API call failed: boom")).val =
      errorConceptText ∧
    (play_again (oracleFail "OpenAI API call failed: boom")
        ⟨"vulkaan", "USER_DESCRIBES"⟩).1.concept = errorConceptText ∧
    (play_again (oracleFail "OpenAI API call failed: boom")
        ⟨"vulkaan", "USER_DESCRIBES"⟩).2 = errorConceptText ∧
    (first_entry (oracleFail "OpenAI API call failed: boom")).1.concept =
      errorConceptText ∧
    (first_entry (oracleFail "OpenAI API call failed: boom")).2 =
      errorConceptText ∧
    ("vulkaan" ≠ errorConceptText →
      (play_again (oracleFail "OpenAI API call failed: boom")
        ⟨"vulkaan", "USER_DESCRIBES"⟩).1.concept ≠ "vulkaan") :=
  concept_failure_placeholder (oracleFail "OpenAI API call failed: boom")
    ⟨"vulkaan", "USER_DESCRIBES"⟩ "OpenAI API call failed: boom" rfl

end GuessTheWord
